import Mathlib

/-!
# Verification of the ChatSession sequencing and history-admission core

Shallow embedding of `src/methods/chat-session.ts`.

* JavaScript objects whose fields may be absent, explicitly `undefined`, or
  carry a value are modelled with `Option (Option _)`:
  `none` = field absent, `some none` = present with value `undefined`,
  `some (some v)` = present with value `v`.
* The delegated collaborators (`isValidResponse`, `formatBlockErrorMessage`,
  `validateChatHistory`, living outside this file's source) are parameters.
* The asynchronous behaviour of `sendMessage` / `sendMessageStream` /
  `getHistory` is embedded as a deterministic promise/microtask machine:
  promises are numbered cells, `.then`/`.catch` reactions carry handlers drawn
  from a closed inductive whose arms are transliterated from the source, and
  the microtask queue is drained in FIFO order exactly as a JS event loop
  does.  Remote calls are pending promises that a test driver settles.
-/

namespace GenAI

/-- One content fragment; opaque to this core (chat-session.ts treats parts
as data it never inspects). -/
abbrev Part := String

/-- A runtime `Content` object.  Both fields may be absent or explicitly
`undefined` at runtime, which is exactly what the admission code defends
against. -/
structure ContentObj where
  role : Option (Option String)
  parts : Option (Option (List Part))
deriving DecidableEq, Inhabited

/-- One element of `response.candidates`; its `content` property may be
absent. -/
structure Candidate where
  content : Option ContentObj
deriving DecidableEq, Inhabited

/-- The decoded response object; `candidates` may be absent
(`response.candidates` is accessed with and without optional chaining in the
source, so absence and emptiness must be distinguished). -/
structure EnhResp where
  candidates : Option (List Candidate)
deriving DecidableEq, Inhabited

/-- A thrown JS error, identified by its `message` (the only property the
source inspects, at chat-session.ts:205). -/
structure JsErr where
  message : String
deriving DecidableEq, Inhabited

/-- Error thrown by the delegated history validation. -/
structure ValidationError where
  message : String
deriving DecidableEq, Inhabited

/-- chat-session.ts:36 — `const SILENT_ERROR = "SILENT_ERROR"`. -/
def SILENT_ERROR : String := "SILENT_ERROR"

/-- The delegated collaborators imported at chat-session.ts:29-30; their code
lives outside this file's source, so they are parameters of the model.
`formatBlockErrorMessage` returns a string tested for truthiness, so the
empty string means "nothing to report". -/
structure Collab where
  isValidResponse : EnhResp → Bool
  formatBlockErrorMessage : EnhResp → String

/-- The thrown `TypeError` produced by reading a property of `undefined`. -/
def typeError : JsErr := ⟨"TypeError"⟩

/-- chat-session.ts:113-118 — the unary model turn:
`parts: [], role: "model"` overridden field-by-field by the spread of the
candidate content (spreading `undefined` is a no-op, so an absent content
leaves both defaults in place; a field present on the content object wins
even when its value is `undefined`). -/
def unaryResponseContent (oc : Option ContentObj) : ContentObj :=
  match oc with
  | none => { role := some (some "model"), parts := some (some []) }
  | some c =>
      { role := match c.role with
          | some r => some r
          | none => some (some "model")
        parts := match c.parts with
          | some p => some p
          | none => some (some []) }

/-- JS truthiness test `!responseContent.role` (chat-session.ts:188): true
when `role` is absent, `undefined`, or the empty string. -/
def roleFalsy : Option (Option String) → Bool
  | none => true
  | some none => true
  | some (some s) => s = ""

/-- chat-session.ts:186-190 — the streaming model turn: a fresh shallow copy
of the candidate content, then `role` set to "model" when falsy.  No `parts`
default is applied on this path. -/
def streamResponseContent (oc : Option ContentObj) : ContentObj :=
  let rc : ContentObj := match oc with
    | none => { role := none, parts := none }
    | some c => c
  if roleFalsy rc.role then { rc with role := some (some "model") } else rc

/-- chat-session.ts:117 — `result.response.candidates?.[0].content`.
Optional chaining short-circuits the whole chain when `candidates` is
absent; with a present but empty array, `candidates[0]` is `undefined` and
the `.content` read throws. -/
def deriveUnaryModelTurn (r : EnhResp) : Except JsErr ContentObj :=
  match r.candidates with
  | none => .ok (unaryResponseContent none)
  | some [] => .error typeError
  | some (c :: _) => .ok (unaryResponseContent c.content)

/-- chat-session.ts:186 — `response.candidates[0].content` with no optional
chaining: absent `candidates` or an empty array both throw. -/
def deriveStreamModelTurn (r : EnhResp) : Except JsErr ContentObj :=
  match r.candidates with
  | none => .error typeError
  | some [] => .error typeError
  | some (c :: _) => .ok (streamResponseContent c.content)

/-- The warning text built at chat-session.ts:123-125. -/
def unaryBlockWarning (m : String) : String :=
  "sendMessage() was unsuccessful. " ++ m ++ ". Inspect response object for details."

/-- The warning text built at chat-session.ts:195-197. -/
def streamBlockWarning (m : String) : String :=
  "sendMessageStream() was unsuccessful. " ++ m ++ ". Inspect response object for details."

/-- Outcome of one admission step: the history after the step, the warnings
emitted, and the error thrown (if any).  When the model-turn derivation
throws, the user turn has already been pushed. -/
structure AdmitOut where
  hist : List ContentObj
  warns : List String
  thrown : Option JsErr
deriving DecidableEq

/-- chat-session.ts:110-129 — the unary admission step run against the
current history.  Valid response: push the user turn, derive the model turn,
push it.  Invalid response: leave history alone and warn exactly when the
delegated block explanation is non-empty. -/
def admitUnary (cb : Collab) (hist : List ContentObj) (newContent : ContentObj)
    (resp : EnhResp) : AdmitOut :=
  if cb.isValidResponse resp then
    let h1 := hist ++ [newContent]
    match deriveUnaryModelTurn resp with
    | .error e => ⟨h1, [], some e⟩
    | .ok m => ⟨h1 ++ [m], [], none⟩
  else
    let m := cb.formatBlockErrorMessage resp
    if m = "" then ⟨hist, [], none⟩ else ⟨hist, [unaryBlockWarning m], none⟩

/-- chat-session.ts:183-200 — the streaming admission step (identical shape;
different model-turn derivation and warning text). -/
def admitStream (cb : Collab) (hist : List ContentObj) (newContent : ContentObj)
    (resp : EnhResp) : AdmitOut :=
  if cb.isValidResponse resp then
    let h1 := hist ++ [newContent]
    match deriveStreamModelTurn resp with
    | .error e => ⟨h1, [], some e⟩
    | .ok m => ⟨h1 ++ [m], [], none⟩
  else
    let m := cb.formatBlockErrorMessage resp
    if m = "" then ⟨hist, [], none⟩ else ⟨hist, [streamBlockWarning m], none⟩

/-- A JS options object, modelled generically as a map from field name to
field state (the concrete field set of `RequestOptions` lives in `types/`,
outside this file's source): `none` = absent, `some none` = present
`undefined`, `some (some v)` = present value. -/
abbrev ReqOpts := String → Option (Option String)

/-- chat-session.ts:95-98 — the shallow spread merge
`... this._requestOptions, ...requestOptions`: a field present on the
per-call options (even with value `undefined`) wins; otherwise the
session-level field is used. -/
def chatSessionRequestOptions (sessionOpts perCallOpts : ReqOpts) : ReqOpts :=
  fun k =>
    match perCallOpts k with
    | some v => some v
    | none => sessionOpts k

/-! ## The promise / microtask machine -/

/-- Promise identifier. -/
abbrev PromId := Nat

/-- The values that flow through the promises of this code: the chain's
`undefined`, a `GenerateContentResult` (whose only consulted field is
`response`), a `GenerateContentStreamResult` (whose `response` field is a
further promise), a decoded response, and a history snapshot (the value
`getHistory` resolves with). -/
inductive JVal where
  | unit
  | gres (resp : EnhResp)
  | sres (responseProm : PromId)
  | resp (r : EnhResp)
  | hist (l : List ContentObj)
deriving DecidableEq

/-- The `.then`/`.catch` callbacks and `async`-function resumption points of
chat-session.ts, one constructor per code location, indexed by the
invocation they belong to. -/
inductive Handler where
  | uBody (inv : Nat)        -- sendMessage body after the entry await (:85-135)
  | uCall (inv : Nat)        -- () => generateContent(...) (:102-109)
  | uAdmit (inv : Nat)       -- (result) => admission (:110-129)
  | uCatch (inv : Nat)       -- (e) => reset and rethrow (:130-134)
  | uRet (inv : Nat)         -- return finalResult (:136)
  | ghBody (inv : Nat)       -- getHistory body after the await (:68-69)
  | sBody (inv : Nat)        -- sendMessageStream body after the entry await (:153-211)
  | sThen (inv : Nat)        -- () => streamPromise (:176)
  | sSilent (inv : Nat)      -- (ignored) => throw Error(SILENT_ERROR) (:179-181)
  | sGetResp (inv : Nat)     -- (streamResult) => streamResult.response (:182)
  | sAdmit (inv : Nat)       -- (response) => admission (:183-200)
  | sFinalCatch (inv : Nat)  -- final catch (:201-210)
deriving DecidableEq

/-- One registered promise reaction: the fulfillment handler, the rejection
handler, and the promise the handler's outcome settles. -/
structure Reaction where
  onF : Option Handler
  onR : Option Handler
  target : Option PromId
deriving DecidableEq

/-- A promise cell. -/
inductive PromState where
  | pending (rs : List Reaction)
  | fulfilled (v : JVal)
  | rejected (e : JsErr)
deriving DecidableEq

/-- A queued microtask: the settled outcome being delivered plus the
reaction receiving it. -/
abbrev Job := Except JsErr JVal × Reaction

/-- Per-invocation record: the formatted user turn, the per-call options,
and the values captured when the body ran (the `contents` snapshot of the
generation request, the merged request options, the `finalResult` local) plus
the promise the async function returned to the caller. -/
structure InvRec where
  newContent : ContentObj
  perCallOpts : ReqOpts
  reqContents : List ContentObj
  mergedOpts : Option ReqOpts
  finalResult : Option EnhResp
  outer : PromId
deriving Inhabited

/-- The whole machine state: the session fields (`_history`, `_sendPromise`,
`_requestOptions`), the promise heap, the microtask queue, the invocation
records, the console output, the instrumentation event log, and the pending
remote calls awaiting the driver. -/
structure MState where
  hist : List ContentObj
  sendProm : PromId
  reqOptions : ReqOpts
  proms : List (PromId × PromState)
  queue : List Job
  invs : List InvRec
  nextProm : Nat
  warns : List String
  errLog : List JsErr
  events : List (Bool × Nat)
  ioUnary : List (Nat × PromId)
  ioStream : List (Nat × PromId × PromId)

/-- Event-log entries: `(false, inv)` records that invocation `inv`
dispatched its remote call, `(true, inv)` that its admission step ran to
completion. -/
def evIoStart (inv : Nat) : Bool × Nat := (false, inv)

/-- See `evIoStart`. -/
def evAdmitted (inv : Nat) : Bool × Nat := (true, inv)

/-- Read a promise cell. -/
def getProm (s : MState) (p : PromId) : PromState :=
  match s.proms.lookup p with
  | some st => st
  | none => .pending []

/-- Overwrite a promise cell. -/
def setProm (s : MState) (p : PromId) (st : PromState) : MState :=
  { s with proms := s.proms.map (fun kv => if kv.1 = p then (p, st) else kv) }

/-- Allocate a fresh pending promise. -/
def allocProm (s : MState) : MState × PromId :=
  ({ s with proms := s.proms ++ [(s.nextProm, .pending [])],
            nextProm := s.nextProm + 1 }, s.nextProm)

/-- Allocate `Promise.resolve()`. -/
def allocResolved (s : MState) : MState × PromId :=
  ({ s with proms := s.proms ++ [(s.nextProm, .fulfilled .unit)],
            nextProm := s.nextProm + 1 }, s.nextProm)

/-- Settle a pending promise and enqueue all its reactions (FIFO). -/
def settleP (s : MState) (p : PromId) (o : Except JsErr JVal) : MState :=
  match s.proms.lookup p with
  | some (.pending rs) =>
      let st := match o with
        | .ok v => PromState.fulfilled v
        | .error e => PromState.rejected e
      let s := setProm s p st
      { s with queue := s.queue ++ rs.map (fun r => (o, r)) }
  | _ => s

/-- Register a reaction on a promise; on an already-settled promise the
reaction is enqueued immediately, as `.then` on a settled JS promise does. -/
def addReaction (s : MState) (p : PromId) (r : Reaction) : MState :=
  match s.proms.lookup p with
  | some (.pending rs) => setProm s p (.pending (rs ++ [r]))
  | some (.fulfilled v) => { s with queue := s.queue ++ [(Except.ok v, r)] }
  | some (.rejected e) => { s with queue := s.queue ++ [(Except.error e, r)] }
  | none => s

/-- `p.then(onF, onR)`: allocate the derived promise and register the
reaction. -/
def thenP (s : MState) (p : PromId) (onF onR : Option Handler) : MState × PromId :=
  let (s, q) := allocProm s
  (addReaction s p ⟨onF, onR, some q⟩, q)

/-- Settle an optional target promise. -/
def settleTarget (s : MState) (t : Option PromId) (o : Except JsErr JVal) : MState :=
  match t with
  | some p => settleP s p o
  | none => s

/-- What a handler did: returned a value, returned a promise (the target
then adopts it), threw, or is an async-body segment that does not settle its
function's promise yet. -/
inductive HRes where
  | val (v : JVal)
  | prom (p : PromId)
  | thr (e : JsErr)
  | noSettle

/-- Route a handler's outcome into the reaction's target promise. -/
def applyHRes (t : Option PromId) : MState × HRes → MState
  | (s, .val v) => settleTarget s t (.ok v)
  | (s, .thr e) => settleTarget s t (.error e)
  | (s, .prom p) =>
      match t with
      | some q => addReaction s p ⟨none, none, some q⟩
      | none => s
  | (s, .noSettle) => s

/-- Fulfillment handlers, transliterated arm by arm from chat-session.ts. -/
def runF (cb : Collab) : Handler → JVal → MState → MState × HRes
  | .uBody inv, _, s =>
      -- :85-135 — the synchronous segment after `await this._sendPromise`:
      -- snapshot history into the request, merge options, chain the remote
      -- call + admission + catch onto the current tail, replace the tail,
      -- then await the new tail (continuation registered as uRet).
      let r0 := s.invs.getD inv default
      let contents := s.hist ++ [r0.newContent]
      let merged := chatSessionRequestOptions s.reqOptions r0.perCallOpts
      let r1 := { r0 with reqContents := contents, mergedOpts := some merged }
      let s := { s with invs := s.invs.set inv r1 }
      let (s, p1) := thenP s s.sendProm (some (.uCall inv)) none
      let (s, p2) := thenP s p1 (some (.uAdmit inv)) none
      let (s, p3) := thenP s p2 none (some (.uCatch inv))
      let s := { s with sendProm := p3 }
      let s := addReaction s p3 ⟨some (.uRet inv), none, some r0.outer⟩
      (s, .noSettle)
  | .uCall inv, _, s =>
      -- :102-109 — dispatch generateContent; its promise is pending until
      -- the driver settles it.
      let (s, pIO) := allocProm s
      let s := { s with ioUnary := s.ioUnary ++ [(inv, pIO)],
                        events := s.events ++ [evIoStart inv] }
      (s, .prom pIO)
  | .uAdmit inv, v, s =>
      -- :110-129 — the admission step plus `finalResult = result`.
      match v with
      | .gres resp =>
          let r0 := s.invs.getD inv default
          let out := admitUnary cb s.hist r0.newContent resp
          let s := { s with hist := out.hist, warns := s.warns ++ out.warns }
          match out.thrown with
          | some e => (s, .thr e)
          | none =>
              let r1 := { r0 with finalResult := some resp }
              let s := { s with invs := s.invs.set inv r1,
                                events := s.events ++ [evAdmitted inv] }
              (s, .val .unit)
      | _ => (s, .thr ⟨"unexpected value"⟩)
  | .uRet inv, _, s =>
      -- :136 — `return finalResult`.
      match (s.invs.getD inv default).finalResult with
      | some r => (s, .val (.gres r))
      | none => (s, .val .unit)
  | .ghBody _, _, s =>
      -- :68-69 — `return this._history` (the sequence of turns the shared
      -- array holds at this instant).
      (s, .val (.hist s.hist))
  | .sBody inv, _, s =>
      -- :153-211 — snapshot history into the request, merge options,
      -- dispatch generateContentStream immediately, chain the five links
      -- onto the current tail, replace the tail, return streamPromise.
      let r0 := s.invs.getD inv default
      let contents := s.hist ++ [r0.newContent]
      let merged := chatSessionRequestOptions s.reqOptions r0.perCallOpts
      let r1 := { r0 with reqContents := contents, mergedOpts := some merged }
      let (s, pResp) := allocProm s
      let (s, pStream) := allocProm s
      let s := { s with invs := s.invs.set inv r1,
                        ioStream := s.ioStream ++ [(inv, pStream, pResp)],
                        events := s.events ++ [evIoStart inv] }
      let (s, p1) := thenP s s.sendProm (some (.sThen inv)) none
      let (s, p2) := thenP s p1 none (some (.sSilent inv))
      let (s, p3) := thenP s p2 (some (.sGetResp inv)) none
      let (s, p4) := thenP s p3 (some (.sAdmit inv)) none
      let (s, p5) := thenP s p4 none (some (.sFinalCatch inv))
      let s := { s with sendProm := p5 }
      (s, .prom pStream)
  | .sThen inv, _, s =>
      -- :176 — `() => streamPromise`.
      match s.ioStream.find? (fun x => x.1 == inv) with
      | some (_, pS, _) => (s, .prom pS)
      | none => (s, .noSettle)
  | .sGetResp _, v, s =>
      -- :182 — `(streamResult) => streamResult.response`.
      match v with
      | .sres pR => (s, .prom pR)
      | _ => (s, .thr ⟨"unexpected value"⟩)
  | .sAdmit inv, v, s =>
      -- :183-200 — the streaming admission step.
      match v with
      | .resp r =>
          let r0 := s.invs.getD inv default
          let out := admitStream cb s.hist r0.newContent r
          let s := { s with hist := out.hist, warns := s.warns ++ out.warns }
          match out.thrown with
          | some e => (s, .thr e)
          | none => ({ s with events := s.events ++ [evAdmitted inv] }, .val .unit)
      | _ => (s, .thr ⟨"unexpected value"⟩)
  | _, _, s => (s, .noSettle)

/-- Rejection handlers. -/
def runR (_cb : Collab) : Handler → JsErr → MState → MState × HRes
  | .uCatch _, e, s =>
      -- :130-134 — reset `_sendPromise` to `Promise.resolve()` and rethrow.
      let (s, p) := allocResolved s
      ({ s with sendProm := p }, .thr e)
  | .sSilent _, _, s =>
      -- :179-181 — `throw new Error(SILENT_ERROR)`.
      (s, .thr ⟨SILENT_ERROR⟩)
  | .sFinalCatch _, e, s =>
      -- :201-210 — swallow; log via console.error unless the message is the
      -- silent marker.
      if e.message = SILENT_ERROR then (s, .val .unit)
      else ({ s with errLog := s.errLog ++ [e] }, .val .unit)
  | _, e, s => (s, .thr e)

/-- Deliver one queued microtask. -/
def runJob (cb : Collab) (j : Job) (s : MState) : MState :=
  match j with
  | (.ok v, r) =>
      match r.onF with
      | some h => applyHRes r.target (runF cb h v s)
      | none => settleTarget s r.target (.ok v)
  | (.error e, r) =>
      match r.onR with
      | some h => applyHRes r.target (runR cb h e s)
      | none => settleTarget s r.target (.error e)

/-- Drain the microtask queue in FIFO order (fuel-bounded; every scenario in
this file needs far fewer steps than the fuel supplied). -/
def drain (cb : Collab) : Nat → MState → MState
  | 0, s => s
  | n + 1, s =>
      match s.queue with
      | [] => s
      | j :: rest => drain cb n (runJob cb j { s with queue := rest })

/-- The freshly-constructed session state (chat-session.ts:46-47):
`_history` as given, `_sendPromise = Promise.resolve()` held in cell 0. -/
def initSession (h0 : List ContentObj) (ro : ReqOpts) : MState :=
  { hist := h0, sendProm := 0, reqOptions := ro,
    proms := [(0, .fulfilled .unit)], queue := [], invs := [], nextProm := 1,
    warns := [], errLog := [], events := [], ioUnary := [], ioStream := [] }

/-- chat-session.ts:49-60 — the constructor: a supplied history must pass the
delegated validation (whose failure propagates); otherwise the owned history
starts empty. -/
def construct (validateChatHistory : List ContentObj → Except ValidationError Unit)
    (history : Option (List ContentObj)) (requestOptions : ReqOpts) :
    Except ValidationError MState :=
  match history with
  | some h =>
      match validateChatHistory h with
      | .error err => .error err
      | .ok _ => .ok (initSession h requestOptions)
  | none => .ok (initSession [] requestOptions)

/-- chat-session.ts:80-84 — the synchronous prefix of `sendMessage(request,
requestOptions)`: record the invocation (the user turn stands for the result
of the delegated `formatNewContent`), then `await this._sendPromise`,
i.e. register the body as a reaction on the tail as it stands right now.
Returns the promise handed back to the caller. -/
def invokeSendMessage (c : ContentObj) (ro : ReqOpts) (s : MState) : MState × PromId :=
  let (s, outer) := allocProm s
  let inv := s.invs.length
  let r0 : InvRec :=
    { newContent := c, perCallOpts := ro, reqContents := [], mergedOpts := none,
      finalResult := none, outer := outer }
  let s := { s with invs := s.invs ++ [r0] }
  (addReaction s s.sendProm ⟨some (.uBody inv), none, some outer⟩, outer)

/-- chat-session.ts:148-152 — the synchronous prefix of
`sendMessageStream`. -/
def invokeSendMessageStream (c : ContentObj) (ro : ReqOpts) (s : MState) : MState × PromId :=
  let (s, outer) := allocProm s
  let inv := s.invs.length
  let r0 : InvRec :=
    { newContent := c, perCallOpts := ro, reqContents := [], mergedOpts := none,
      finalResult := none, outer := outer }
  let s := { s with invs := s.invs ++ [r0] }
  (addReaction s s.sendProm ⟨some (.sBody inv), none, some outer⟩, outer)

/-- chat-session.ts:67-68 — the synchronous prefix of `getHistory`:
`await this._sendPromise` on the tail as it stands right now. -/
def invokeGetHistory (s : MState) : MState × PromId :=
  let (s, outer) := allocProm s
  let inv := s.invs.length
  let r0 : InvRec :=
    { newContent := default, perCallOpts := fun _ => none, reqContents := [],
      mergedOpts := none, finalResult := none, outer := outer }
  let s := { s with invs := s.invs ++ [r0] }
  (addReaction s s.sendProm ⟨some (.ghBody inv), none, some outer⟩, outer)

/-- Driver: complete invocation `inv`'s unary remote call. -/
def settleUnary (inv : Nat) (o : Except JsErr EnhResp) (s : MState) : MState :=
  match s.ioUnary.find? (fun x => x.1 == inv) with
  | some (_, p) => settleP s p (o.map JVal.gres)
  | none => s

/-- Driver: complete (or fail) invocation `inv`'s `generateContentStream`
promise; on success it resolves to the stream result whose `response` field
is the separate response promise. -/
def settleStreamPromise (inv : Nat) (o : Except JsErr Unit) (s : MState) : MState :=
  match s.ioStream.find? (fun x => x.1 == inv) with
  | some (_, pS, pR) =>
      match o with
      | .ok _ => settleP s pS (.ok (.sres pR))
      | .error e => settleP s pS (.error e)
  | none => s

/-- Driver: settle invocation `inv`'s final-response promise. -/
def settleStreamResp (inv : Nat) (o : Except JsErr EnhResp) (s : MState) : MState :=
  match s.ioStream.find? (fun x => x.1 == inv) with
  | some (_, _, pR) => settleP s pR (o.map JVal.resp)
  | none => s

/-- The `contents` snapshot the generation request of invocation `inv` was
built from. -/
def reqContentsOf (s : MState) (inv : Nat) : List ContentObj :=
  (s.invs.getD inv default).reqContents

/-- The merged request options passed to invocation `inv`'s remote call. -/
def mergedOptsOf (s : MState) (inv : Nat) : Option ReqOpts :=
  (s.invs.getD inv default).mergedOpts

/-- The `role` carried by a candidate's content object (absent content has
no role). -/
def candContentRole (oc : Option ContentObj) : Option (Option String) :=
  match oc with
  | none => none
  | some o => o.role

/-! ## Concrete fixtures for machine scenarios -/

/-- A concrete instantiation of the delegated collaborators: a response is
valid iff it has at least one candidate; blocked responses carry no
explanation. -/
def cb0 : Collab :=
  ⟨fun r => match r.candidates with | some (_ :: _) => true | _ => false,
   fun _ => ""⟩

/-- Collaborators that deem every response blocked with explanation
"SAFETY". -/
def cbBlock : Collab := ⟨fun _ => false, fun _ => "SAFETY"⟩

/-- A prior user turn already in history. -/
def user0 : ContentObj := ⟨some (some "user"), some (some ["hi"])⟩

/-- A prior model turn already in history. -/
def model0 : ContentObj := ⟨some (some "model"), some (some ["hello"])⟩

/-- The user turn of send A. -/
def userA : ContentObj := ⟨some (some "user"), some (some ["helloA"])⟩

/-- The user turn of send B. -/
def userB : ContentObj := ⟨some (some "user"), some (some ["helloB"])⟩

/-- Send A's candidate: no role (the service omits it), one part. -/
def candA : Candidate := ⟨some ⟨none, some (some ["replyA"])⟩⟩

/-- Send A's valid response. -/
def respA : EnhResp := ⟨some [candA]⟩

/-- The model turn admission derives from `respA`. -/
def modelA : ContentObj := ⟨some (some "model"), some (some ["replyA"])⟩

/-- Send B's candidate. -/
def candB : Candidate := ⟨some ⟨none, some (some ["replyB"])⟩⟩

/-- Send B's valid response. -/
def respB : EnhResp := ⟨some [candB]⟩

/-- The model turn admission derives from `respB`. -/
def modelB : ContentObj := ⟨some (some "model"), some (some ["replyB"])⟩

/-- A response with no candidates at all, used with `cbBlock`. -/
def respBlocked : EnhResp := ⟨none⟩

/-- Empty request options. -/
def noOpts : ReqOpts := fun _ => none

/-- A transport failure. -/
def errX : JsErr := ⟨"network down"⟩

/-- A failure arising inside the background chain after the stream
resolved. -/
def errY : JsErr := ⟨"bookkeeping bug"⟩

/-- Session-level default request options. -/
def optsSession : ReqOpts := fun k =>
  if k = "timeout" then some (some "100")
  else if k = "apiVersion" then some (some "v1") else none

/-- Per-call request options: override `timeout`, carry an explicitly
`undefined` `baseUrl`. -/
def optsCall : ReqOpts := fun k =>
  if k = "timeout" then some (some "5")
  else if k = "baseUrl" then some none else none

/-! ## Machine scenarios -/

/-- Two unary sends invoked back to back on a fresh session, the caller
never awaiting A before invoking B; both remote calls then succeed with
valid responses (A's completing first).  This is the deterministic schedule
a JS event loop produces for that call pattern. -/
def c1Run : MState :=
  let s := initSession [] noOpts
  let s := (invokeSendMessage userA noOpts s).1
  let s := (invokeSendMessage userB noOpts s).1
  let s := drain cb0 32 s
  let s := settleUnary 0 (.ok respA) s
  let s := drain cb0 32 s
  let s := settleUnary 1 (.ok respB) s
  drain cb0 32 s

/-- One unary send on a session with two prior turns, whose remote call
fails; run to quiescence.  Returns the state and the caller's promise. -/
def c3MidRun : MState × PromId :=
  let s := initSession [user0, model0] noOpts
  let p := invokeSendMessage userA noOpts s
  let s := drain cb0 32 p.1
  (drain cb0 32 (settleUnary 0 (.error errX) s), p.2)

/-- Continuation of `c3MidRun`: a subsequent unary send issued after the
failure, whose remote call succeeds. -/
def c3FullRun : MState × PromId :=
  let p := invokeSendMessage userB noOpts c3MidRun.1
  let s := drain cb0 32 p.1
  (drain cb0 32 (settleUnary 1 (.ok respB) s), p.2)

/-- One unary send whose remote call succeeds but whose response the
collaborators deem blocked (with a non-empty explanation). -/
def c4Run : MState × PromId :=
  let s := initSession [user0, model0] noOpts
  let p := invokeSendMessage userA noOpts s
  let s := drain cbBlock 32 p.1
  (drain cbBlock 32 (settleUnary 0 (.ok respBlocked) s), p.2)

/-- A streaming send whose remote call fails, followed by a `getHistory`
and a subsequent unary send that succeeds.  Returns the state, the stream
caller's promise, `getHistory`'s promise, and the follow-up send's
promise. -/
def c5aRun : MState × PromId × PromId × PromId :=
  let s := initSession [user0, model0] noOpts
  let p := invokeSendMessageStream userA noOpts s
  let s := drain cb0 32 p.1
  let s := settleStreamPromise 0 (.error errX) s
  let s := drain cb0 32 s
  let g := invokeGetHistory s
  let s := drain cb0 32 g.1
  let q := invokeSendMessage userB noOpts s
  let s := drain cb0 32 q.1
  let s := settleUnary 2 (.ok respB) s
  (drain cb0 32 s, p.2, g.2, q.2)

/-- A streaming send whose stream result arrives but whose chain then fails
downstream (the final-response promise rejects), followed by a
`getHistory`. -/
def c5bRun : MState × PromId × PromId :=
  let s := initSession [user0, model0] noOpts
  let p := invokeSendMessageStream userA noOpts s
  let s := drain cb0 32 p.1
  let s := settleStreamPromise 0 (.ok ()) s
  let s := drain cb0 32 s
  let s := settleStreamResp 0 (.error errY) s
  let s := drain cb0 32 s
  let g := invokeGetHistory s
  (drain cb0 32 g.1, p.2, g.2)

/-- A unary send invoked and, immediately after (without awaiting it), a
`getHistory`; the remote call then succeeds with a valid response. -/
def c6Run : MState × PromId :=
  let s := initSession [] noOpts
  let s := (invokeSendMessage userA noOpts s).1
  let p := invokeGetHistory s
  let s := drain cb0 32 p.1
  let s := settleUnary 0 (.ok respA) s
  (drain cb0 32 s, p.2)

/-- A unary send with session-level and per-call options, run to the point
where its remote call has been dispatched. -/
def c8URun : MState :=
  drain cb0 8 ((invokeSendMessage userA optsCall (initSession [] optsSession)).1)

/-- The streaming counterpart of `c8URun`. -/
def c8SRun : MState :=
  drain cb0 8 ((invokeSendMessageStream userA optsCall (initSession [] optsSession)).1)

/-- A history validator that accepts everything. -/
def validateOk : List ContentObj → Except ValidationError Unit := fun _ => .ok ()

/-- A history validator that rejects everything. -/
def validateFail : List ContentObj → Except ValidationError Unit :=
  fun _ => .error ⟨"invalid history"⟩

/-! ## Theorems -/

/-- C1: on the deterministic schedule of two sends invoked without the
caller awaiting the first, A's admission does run to completion strictly
before B's remote call is even dispatched (the event log is
ioStart A, admitted A, ioStart B, admitted B), yet the generation request
built for B snapshots History before A's admission: its `contents` is just
`[userB]`, not `[userA, modelA, userB]` as the claim requires — the entry
`await this._sendPromise` of both sends captured the same pre-A chain tail,
so B's body (which builds the request) resumed before A's admission ran. -/
theorem concurrent_send_request_omits_prior_admitted_turns :
    reqContentsOf c1Run 0 = [userA] ∧
    reqContentsOf c1Run 1 = [userB] ∧
    reqContentsOf c1Run 1 ≠ [userA, modelA, userB] ∧
    c1Run.hist = [userA, modelA, userB, modelB] ∧
    c1Run.events = [evIoStart 0, evAdmitted 0, evIoStart 1, evAdmitted 1] := by
  decide

/-- C2: a completed admission step (either path) changes History only by
appending at its end exactly the user turn followed by the derived model
turn when the delegated validity predicate holds (the candidate-shape
premise sits inside that branch: it is the delegated contract that a valid
response carries a candidate), and exactly nothing — for every response,
candidate-less ones included — when it does not; in both cases nothing is
thrown, nothing is inserted, removed or reordered. -/
theorem admission_appends_exactly_two_or_zero_turns
    (cb : Collab) (hist : List ContentObj) (u : ContentObj) (r : EnhResp) :
    (cb.isValidResponse r = true →
      ∀ c cs, r.candidates = some (c :: cs) →
        admitUnary cb hist u r =
          ⟨hist ++ [u, unaryResponseContent c.content], [], none⟩ ∧
        admitStream cb hist u r =
          ⟨hist ++ [u, streamResponseContent c.content], [], none⟩) ∧
    (cb.isValidResponse r = false →
      (admitUnary cb hist u r).hist = hist ∧
      (admitStream cb hist u r).hist = hist ∧
      (admitUnary cb hist u r).thrown = none ∧
      (admitStream cb hist u r).thrown = none) := by
  constructor
  · intro hv c cs hc
    simp [admitUnary, admitStream, hv, deriveUnaryModelTurn, deriveStreamModelTurn, hc]
  · intro hv
    by_cases hm : cb.formatBlockErrorMessage r = "" <;>
      simp [admitUnary, admitStream, hv, hm]

/-- C2 witness: with the concrete collaborators and a valid one-candidate
response, the unary and the streaming admission steps append exactly the
user turn and the derived model turn; and a blocked, candidate-less
response appends nothing on either path. -/
theorem admission_appends_exactly_two_or_zero_turns_witness :
    admitUnary cb0 [] userA respA = ⟨[userA, modelA], [], none⟩ ∧
    admitStream cb0 [] userA respA = ⟨[userA, modelA], [], none⟩ ∧
    (admitUnary cbBlock [user0] userA respBlocked).hist = [user0] ∧
    (admitStream cbBlock [user0] userA respBlocked).hist = [user0] := by
  have h :=
    (admission_appends_exactly_two_or_zero_turns cb0 [] userA respA).1 rfl candA [] rfl
  have h2 :=
    (admission_appends_exactly_two_or_zero_turns cbBlock [user0] userA respBlocked).2 rfl
  exact ⟨by rw [h.1]; decide, by rw [h.2]; decide, h2.1, h2.2.1⟩

/-- C3: after a unary send whose remote call fails, the session's
`_sendPromise` is an already-resolved promise, History is unchanged, and
the caller's promise is rejected with the transport error; a subsequent
unary send then succeeds, with its generation request built from the
History exactly as it stood before the failed send. -/
theorem unary_failure_resets_chain_and_preserves_history :
    c3MidRun.1.hist = [user0, model0] ∧
    getProm c3MidRun.1 c3MidRun.1.sendProm = .fulfilled .unit ∧
    getProm c3MidRun.1 c3MidRun.2 = .rejected errX ∧
    reqContentsOf c3FullRun.1 1 = [user0, model0, userB] ∧
    getProm c3FullRun.1 c3FullRun.2 = .fulfilled (.gres respB) ∧
    c3FullRun.1.hist = [user0, model0, userB, modelB] := by
  decide

/-- C4: when the remote call succeeds but the delegated validity predicate
rejects the response, neither admission path mutates History or throws, and
a warning is emitted iff the delegated block explanation is non-empty; on
the machine, the blocked unary send leaves History untouched, emits exactly
the formatted warning, logs no error, resolves the caller's promise with
the full result, and leaves the chain resolved. -/
theorem blocked_response_admits_nothing_and_warns_iff_message
    (cb : Collab) (hist : List ContentObj) (u : ContentObj) (r : EnhResp)
    (hv : cb.isValidResponse r = false) :
    (admitUnary cb hist u r).hist = hist ∧
    (admitStream cb hist u r).hist = hist ∧
    (admitUnary cb hist u r).thrown = none ∧
    (admitStream cb hist u r).thrown = none ∧
    ((admitUnary cb hist u r).warns = [] ↔ cb.formatBlockErrorMessage r = "") ∧
    ((admitStream cb hist u r).warns = [] ↔ cb.formatBlockErrorMessage r = "") ∧
    c4Run.1.hist = [user0, model0] ∧
    c4Run.1.warns = [unaryBlockWarning "SAFETY"] ∧
    c4Run.1.errLog = [] ∧
    getProm c4Run.1 c4Run.2 = .fulfilled (.gres respBlocked) ∧
    getProm c4Run.1 c4Run.1.sendProm = .fulfilled .unit := by
  refine ⟨?_, ?_, ?_, ?_, ?_, ?_, by decide, by decide, by decide, by decide, by decide⟩ <;>
    by_cases hm : cb.formatBlockErrorMessage r = "" <;>
      simp [admitUnary, admitStream, hv, hm]

/-- C4 witness: a blocked response with explanation "SAFETY" leaves history
unchanged and does warn. -/
theorem blocked_response_admits_nothing_witness :
    (admitUnary cbBlock [] userA respBlocked).hist = [] ∧
    ((admitUnary cbBlock [] userA respBlocked).warns = [] ↔
      cbBlock.formatBlockErrorMessage respBlocked = "") := by
  have h := blocked_response_admits_nothing_and_warns_iff_message cbBlock [] userA respBlocked rfl
  exact ⟨h.1, h.2.2.2.2.1⟩

/-- C5: a streaming send whose remote call fails converts the failure
inside the chain into the single SILENT_ERROR marker (promise cell 5 — the
output of the catch at chat-session.ts:179 — is rejected with it), emits no
console diagnostic, leaves History untouched, and leaves `_sendPromise`
fulfilled, so a later `getHistory` and a later send both succeed; a chain
failure arriving after the stream resolved is logged once via
`console.error`, swallowed, and likewise leaves the chain fulfilled and
usable. -/
theorem stream_failure_silenced_and_chain_swallowed :
    c5aRun.1.errLog = [] ∧
    c5aRun.1.warns = [] ∧
    getProm c5aRun.1 c5aRun.2.1 = .rejected errX ∧
    getProm c5aRun.1 5 = .rejected ⟨SILENT_ERROR⟩ ∧
    getProm c5aRun.1 c5aRun.1.sendProm = .fulfilled .unit ∧
    getProm c5aRun.1 c5aRun.2.2.1 = .fulfilled (.hist [user0, model0]) ∧
    getProm c5aRun.1 c5aRun.2.2.2 = .fulfilled (.gres respB) ∧
    c5aRun.1.hist = [user0, model0, userB, modelB] ∧
    reqContentsOf c5aRun.1 2 = [user0, model0, userB] ∧
    c5bRun.1.errLog = [errY] ∧
    c5bRun.1.warns = [] ∧
    c5bRun.1.hist = [user0, model0] ∧
    getProm c5bRun.1 c5bRun.1.sendProm = .fulfilled .unit ∧
    getProm c5bRun.1 c5bRun.2.2 = .fulfilled (.hist [user0, model0]) := by
  decide

/-- C6: a caller that invokes `sendMessage` without awaiting it and then
immediately invokes `getHistory` gets a `getHistory` promise that resolves
with the history as it stood BEFORE the send's admission (here the empty
sequence), because `getHistory` awaited the chain tail captured before the
send attached its own link; the send's turns land in History only
afterwards. -/
theorem getHistory_after_unawaited_send_misses_its_effect :
    getProm c6Run.1 c6Run.2 = .fulfilled (.hist []) ∧
    c6Run.1.hist = [userA, modelA] := by
  decide

/-- C7: on both paths, a valid response whose candidate content carries no
role yields a model turn stored with role "model", appended directly after
the user turn. -/
theorem model_turn_role_defaults_to_model
    (cb : Collab) (hist : List ContentObj) (u : ContentObj) (r : EnhResp)
    (c : Candidate) (cs : List Candidate)
    (hv : cb.isValidResponse r = true) (hc : r.candidates = some (c :: cs))
    (hrole : candContentRole c.content = none) :
    (admitUnary cb hist u r).hist = hist ++ [u, unaryResponseContent c.content] ∧
    (unaryResponseContent c.content).role = some (some "model") ∧
    (admitStream cb hist u r).hist = hist ++ [u, streamResponseContent c.content] ∧
    (streamResponseContent c.content).role = some (some "model") := by
  cases hcc : c.content with
  | none =>
      simp [admitUnary, admitStream, hv, deriveUnaryModelTurn,
            deriveStreamModelTurn, hc, hcc, unaryResponseContent,
            streamResponseContent, roleFalsy]
  | some o =>
      have ho : o.role = none := by simpa [candContentRole, hcc] using hrole
      simp [admitUnary, admitStream, hv, deriveUnaryModelTurn,
            deriveStreamModelTurn, hc, hcc, unaryResponseContent,
            streamResponseContent, roleFalsy, ho]

/-- C7 witness: the concrete valid response whose candidate omits the role
is stored with role "model". -/
theorem model_turn_role_defaults_witness :
    (admitUnary cb0 [] userA respA).hist = [userA, unaryResponseContent candA.content] ∧
    (unaryResponseContent candA.content).role = some (some "model") := by
  have h := model_turn_role_defaults_to_model cb0 [] userA respA candA [] rfl rfl rfl
  exact ⟨by simpa using h.1, h.2.1⟩

/-- C8: the request options passed to the remote call are the shallow
field-by-field merge of the session defaults with the per-call options: a
field present on the per-call options (even with value undefined) wins, a
field absent there falls back to the session default, and a field absent
from both is absent from the merge; on the machine, both the unary and the
streaming path hand exactly this merge to the remote call. -/
theorem request_options_shallow_merge
    (a b : ReqOpts) (k : String) (v : Option String) :
    (b k = some v → chatSessionRequestOptions a b k = some v) ∧
    (b k = none → chatSessionRequestOptions a b k = a k) ∧
    (a k = none → b k = none → chatSessionRequestOptions a b k = none) ∧
    mergedOptsOf c8URun 0 = some (chatSessionRequestOptions optsSession optsCall) ∧
    mergedOptsOf c8SRun 0 = some (chatSessionRequestOptions optsSession optsCall) := by
  refine ⟨?_, ?_, ?_, rfl, rfl⟩
  · intro h; simp [chatSessionRequestOptions, h]
  · intro h; simp [chatSessionRequestOptions, h]
  · intro h1 h2; simp [chatSessionRequestOptions, h1, h2]

/-- C8 witness: the per-call timeout overrides the session one; the
session-only apiVersion survives. -/
theorem request_options_shallow_merge_witness :
    chatSessionRequestOptions optsSession optsCall "timeout" = some (some "5") ∧
    chatSessionRequestOptions optsSession optsCall "apiVersion" = some (some "v1") := by
  have h1 := request_options_shallow_merge optsSession optsCall "timeout" (some "5")
  have h2 := request_options_shallow_merge optsSession optsCall "apiVersion" (some "v1")
  exact ⟨h1.1 rfl, h2.2.1 rfl⟩

/-- C9: construction with a supplied history fails with exactly the
delegated validation's error when validation rejects, and otherwise makes
the supplied history the owned History; with no history the owned History
is empty; in every successful construction `_sendPromise` is an
already-resolved no-op. -/
theorem construct_validates_history_and_initializes_chain
    (validate : List ContentObj → Except ValidationError Unit)
    (h : List ContentObj) (ro : ReqOpts) (err : ValidationError) :
    (validate h = .error err → construct validate (some h) ro = .error err) ∧
    (construct validate (some h) ro = .error err → validate h = .error err) ∧
    (validate h = .ok () → construct validate (some h) ro = .ok (initSession h ro)) ∧
    construct validate none ro = .ok (initSession [] ro) ∧
    (initSession h ro).hist = h ∧
    getProm (initSession h ro) (initSession h ro).sendProm = .fulfilled .unit := by
  refine ⟨?_, ?_, ?_, rfl, rfl, rfl⟩
  · intro hval; simp [construct, hval]
  · intro hcon
    cases hval : validate h with
    | error e => simpa [construct, hval] using hcon
    | ok u => simp [construct, hval] at hcon
  · intro hval; simp [construct, hval]

/-- C9 witness: a rejecting validator fails construction with its error; an
accepting validator yields a session owning the supplied history. -/
theorem construct_validates_history_witness :
    construct validateFail (some [userA]) noOpts = .error ⟨"invalid history"⟩ ∧
    construct validateOk (some [user0, model0]) noOpts =
      .ok (initSession [user0, model0] noOpts) := by
  have h1 :=
    (construct_validates_history_and_initializes_chain validateFail [userA] noOpts
      ⟨"invalid history"⟩).1 rfl
  have h2 :=
    (construct_validates_history_and_initializes_chain validateOk [user0, model0] noOpts
      ⟨"unused"⟩).2.2.1 rfl
  exact ⟨h1, h2⟩

/-- C10: on the unary path the stored model turn is the default record
(parts = [], role = "model") overridden field-by-field by the candidate
content: an omitted parts field yields the empty parts default (which the
streaming derivation does not apply), a present parts field wins, and a
present role field — even one whose value is undefined — overrides the
"model" default. -/
theorem unary_model_turn_spread_semantics
    (cb : Collab) (hist : List ContentObj) (u : ContentObj) (r : EnhResp)
    (o : ContentObj) (c : Candidate) (cs : List Candidate)
    (hv : cb.isValidResponse r = true) (hc : r.candidates = some (c :: cs))
    (hcc : c.content = some o) :
    (admitUnary cb hist u r).hist = hist ++ [u, unaryResponseContent (some o)] ∧
    (o.parts = none → (unaryResponseContent (some o)).parts = some (some []) ∧
      (streamResponseContent (some o)).parts = none) ∧
    (∀ p, o.parts = some p → (unaryResponseContent (some o)).parts = some p) ∧
    (∀ rv, o.role = some rv → (unaryResponseContent (some o)).role = some rv) := by
  refine ⟨?_, ?_, ?_, ?_⟩
  · simp [admitUnary, hv, deriveUnaryModelTurn, hc, hcc]
  · intro hp
    constructor
    · simp [unaryResponseContent, hp]
    · simp only [streamResponseContent]
      split <;> simp [hp]
  · intro p hp; simp [unaryResponseContent, hp]
  · intro rv hrv; simp [unaryResponseContent, hrv]

/-- C10 witness: a candidate content with parts omitted and role present
but undefined yields a stored unary turn with empty parts and undefined
role, while the streaming derivation leaves parts absent. -/
theorem unary_model_turn_spread_witness :
    (unaryResponseContent (some ⟨some none, none⟩)).parts = some (some []) ∧
    (streamResponseContent (some ⟨some none, none⟩)).parts = none ∧
    (unaryResponseContent (some ⟨some none, none⟩)).role = some none := by
  have h := unary_model_turn_spread_semantics cb0 [] userA
    (⟨some [⟨some ⟨some none, none⟩⟩]⟩ : EnhResp) ⟨some none, none⟩
    ⟨some ⟨some none, none⟩⟩ [] rfl rfl rfl
  exact ⟨(h.2.1 rfl).1, (h.2.1 rfl).2, h.2.2.2 none rfl⟩

end GenAI
